import Mathlib

/-!
Verification of the woodbox HMAC request authenticator (`authenticator.py`).

The Python 2 source operates on byte strings; we model them as Lean `String`s
whose characters play the role of bytes, and model the Python string
operations used by the source (`lower`, `strip`, `split`, `partition`,
`join`, slicing) as explicit functions on the character list so that every
definition is executable and kernel-reducible.

Ambient state (`g.user`, `g.user_reason`) is modelled by returning the pair
that `verify` leaves in `g`; an uncaught Python exception is modelled by the
`Except.error` constructor.  The external collaborators (hashlib's sha256,
hmac, the session store, the wall clock and the Flask request object) are
passed to `verify` as explicit arguments, exactly as the spec's section 1
declares them external.
-/

namespace Woodbox

open List

/-- Python `str.lower` on a single byte: only ASCII capitals are mapped. -/
def lowerChar (c : Char) : Char :=
  if 'A' ≤ c ∧ c ≤ 'Z' then Char.ofNat (c.toNat + 32) else c

/-- Python 2 `str.lower`. -/
def pylower (s : String) : String := String.mk (s.data.map lowerChar)

/-- Python 2 `str.strip`: drop whitespace from both ends. -/
def pystrip (s : String) : String :=
  String.mk (((s.data.dropWhile Char.isWhitespace).reverse.dropWhile Char.isWhitespace).reverse)

/-- Python slicing `s[:n]`. -/
def pytake (s : String) (n : Nat) : String := String.mk (s.data.take n)

/-- Python slicing `s[n:]`. -/
def pydrop (s : String) (n : Nat) : String := String.mk (s.data.drop n)

/-- Helper for `pysplit`: accumulate the current fragment (reversed). -/
def splitCharAux (c : Char) : List Char → List Char → List String
  | [], acc => [String.mk acc.reverse]
  | x :: xs, acc =>
    if x == c then String.mk acc.reverse :: splitCharAux c xs []
    else splitCharAux c xs (x :: acc)

/-- Python 2 `str.split(sep)` with a one-byte separator (`''.split(c) = ['']`). -/
def pysplit (s : String) (c : Char) : List String := splitCharAux c s.data []

/-- Helper for `pypartition`. -/
def partChar (c : Char) : List Char → List Char → String × String
  | [], acc => (String.mk acc.reverse, "")
  | x :: xs, acc =>
    if x == c then (String.mk acc.reverse, String.mk xs)
    else partChar c xs (x :: acc)

/-- Python 2 `str.partition(sep)` with a one-byte separator, keeping the
pieces before and after the first occurrence (the source discards the
separator itself). -/
def pypartition (s : String) (c : Char) : String × String := partChar c s.data []

/-- Python `sep.join(list)`. -/
def joinSep (sep : String) : List String → String
  | [] => ""
  | [x] => x
  | x :: y :: xs => x ++ sep ++ joinSep sep (y :: xs)

/-- Byte-lexicographic order on byte strings, as Python 2 `sorted` compares
`str` values. -/
def lexLe : List Char → List Char → Bool
  | [], _ => true
  | _ :: _, [] => false
  | a :: as, b :: bs =>
    if a.toNat < b.toNat then true
    else if b.toNat < a.toNat then false
    else lexLe as bs

/-- Comparison `a <= b` for Python 2 byte strings. -/
def strLe (a b : String) : Bool := lexLe a.data b.data

/-- Python `sorted` on a list of byte strings. -/
def sortStr (l : List String) : List String :=
  List.insertionSort (fun a b => strLe a b = true) l

/-- Python 2 `urllib.always_safe`: the bytes `quote` never escapes.  Note
that `~` is NOT in this set in Python 2. -/
def always_safe : String :=
  "ABCDEFGHIJKLMNOPQRSTUVWXYZabcdefghijklmnopqrstuvwxyz0123456789_.-"

/-- Upper-case hex digit, as `urllib.quote` emits (`'%%%02X'`). -/
def hexUpper (n : Nat) : Char :=
  if n < 10 then Char.ofNat (48 + n) else Char.ofNat (55 + n)

/-- Two upper-case hex digits of a byte value. -/
def hex2 (n : Nat) : String := String.mk [hexUpper (n / 16 % 16), hexUpper (n % 16)]

/-- Python 2 `urllib.quote` on a single byte: kept verbatim when in `always_safe` or
in the caller's `safe` string, percent-escaped otherwise. -/
def quoteChar (safe : String) (c : Char) : String :=
  if always_safe.data.contains c || safe.data.contains c then String.mk [c]
  else "%" ++ hex2 c.toNat

/-- Python 2 `urllib.quote(s, safe)`; the source calls it with the default
`safe='/'` for the path and with `safe=''` for query keys and values. -/
def quote (s : String) (safe : String) : String :=
  String.join (s.data.map (quoteChar safe))

/-- The pure-Python fallback `compare_digest` defined at the top of
`authenticator.py` (lines 24-34): loop over the first `min(len a, len b)`
positions accumulating a conjunction, then force the result to `False` on a
length mismatch. -/
def compare_digest (a b : String) : Bool :=
  let l := min a.length b.length
  let result := (List.range l).foldl
    (fun result i => result && (a.data.getD i (Char.ofNat 0) == b.data.getD i (Char.ofNat 0)))
    true
  if a.length ≠ b.length then false else result

/-- Instrumented copy of the `compare_digest` fallback that also counts the
loop iterations performed, to express its data-independent control flow. -/
def compareDigestTrace (a b : String) : Bool × Nat :=
  let l := min a.length b.length
  let st := (List.range l).foldl
    (fun st i =>
      (st.1 && (a.data.getD i (Char.ofNat 0) == b.data.getD i (Char.ofNat 0)), st.2 + 1))
    (true, 0)
  (if a.length ≠ b.length then false else st.1, st.2)

/-- Days from 1970-01-01 of a civil date (proleptic Gregorian), the standard
days-from-civil computation, used to give the parsed timestamp a concrete
integer value in seconds. -/
def daysFromCivil (y m d : Int) : Int :=
  let yy := if m ≤ 2 then y - 1 else y
  let era := Int.fdiv yy 400
  let yoe := yy - era * 400
  let mp := Int.emod (m + 9) 12
  let doy := Int.fdiv (153 * mp + 2) 5 + d - 1
  let doe := yoe * 365 + Int.fdiv yoe 4 - Int.fdiv yoe 100 + doy
  era * 146097 + doe - 719468

/-- Modelled from the spec: `strptime_iso8601` (imported by the source from
the repository's `utils.time` module, which is not under `src/`) parses an
ISO-8601 basic-format UTC timestamp `YYYYMMDDTHHMMSSZ`; anything unparsable
is rejected.  We return UTC seconds as an `Int`, and `none` for unparsable
input (the Python function raises `ValueError` there, which the caller in
`authenticator.py` does not catch). -/
def strptime_iso8601 (s : String) : Option Int :=
  match s.data with
  | [y1, y2, y3, y4, m1, m2, d1, d2, t, h1, h2, n1, n2, s1, s2, z] =>
    if t = 'T' ∧ z = 'Z' ∧
        ([y1, y2, y3, y4, m1, m2, d1, d2, h1, h2, n1, n2, s1, s2].all Char.isDigit) then
      let dv := fun (c : Char) => (c.toNat - 48 : Int)
      let y := 1000 * dv y1 + 100 * dv y2 + 10 * dv y3 + dv y4
      let mo := 10 * dv m1 + dv m2
      let da := 10 * dv d1 + dv d2
      let ho := 10 * dv h1 + dv h2
      let mi := 10 * dv n1 + dv n2
      let se := 10 * dv s1 + dv s2
      if 1 ≤ mo ∧ mo ≤ 12 ∧ 1 ≤ da ∧ da ≤ 31 ∧ ho ≤ 23 ∧ mi ≤ 59 ∧ se ≤ 59 then
        some (daysFromCivil y mo da * 86400 + ho * 3600 + mi * 60 + se)
      else none
    else none
  | _ => none

/-- An uncaught Python exception escaping `verify`. -/
inductive PyErr where
  | keyError : String → PyErr
  | valueError : PyErr
deriving DecidableEq

deriving instance DecidableEq for Except

/-- The parts of the Flask `request` object that `verify` reads. -/
structure Request where
  method : String
  path : String
  args : List (String × String)
  data : String

/-- A row of the external session store: `SessionModel` carries the shared
secret and the user identity. -/
structure Session where
  secret : String
  user_id : String
deriving DecidableEq

/-- Python dict assignment `d[k] = v` on an association list: overwrite in
place if the key exists, append otherwise. -/
def dictInsert (m : List (String × String)) (k v : String) : List (String × String) :=
  if m.any (fun p => p.1 == k) then m.map (fun p => if p.1 == k then (k, v) else p)
  else m ++ [(k, v)]

/-- The parser `HMACAuthenticator.parse_authorization_header`: split on the first
space into scheme and a comma-separated parameter list; each parameter is
split on the first `=`, names trimmed and lower-cased, values trimmed. -/
def parse_authorization_header (header : String) : String × List (String × String) :=
  let p := pypartition header ' '
  let method := pystrip p.1
  let argsList := pysplit p.2 ','
  let args_dict := argsList.foldl
    (fun d arg =>
      let q := pypartition arg '='
      dictInsert d (pylower (pystrip q.1)) (pystrip q.2))
    []
  (method, args_dict)

/-- Lines 77-82: the required header set, as the list whose membership is
the set the source builds (base names plus every request header starting
with the ten bytes `x-woodbox-` plus `content-type` when present). -/
def requiredHeaders (headers : List (String × String)) : List String :=
  ["host", "x-woodbox-content-sha256", "x-woodbox-timestamp"] ++
    (headers.map Prod.fst).filter
      (fun h => pytake h 10 == "x-woodbox-" || h == "content-type")

/-- Line 69: `sorted(auth['signedheaders'].lower().split(';'))`. -/
def signedHeadersOf (sh : String) : List String := sortStr (pysplit (pylower sh) ';')

/-- Python `set.__gt__`: line 85 tests `required_headers > set(signed_headers)`,
i.e. PROPER superset (every signed name is required AND some required name is
unsigned) — not the "required not a subset of signed" test the comment above
it describes. -/
def strictSuperset (req sig : List String) : Bool :=
  sig.all (fun s => req.contains s) && req.any (fun r => !(sig.contains r))

/-- Line 87: `required_headers - set(signed_headers)` (as a duplicate-free
list; the iteration order of a Python set is unspecified, we keep first
occurrences in construction order). -/
def uncoveredOf (req sig : List String) : List String :=
  (req.filter (fun r => !(sig.contains r))).dedup

/-- Line 92: `set(signed_headers) - set(headers keys)`. -/
def missingOf (sig keys : List String) : List String :=
  (sig.filter (fun s => !(keys.contains s))).dedup

/-- Line 126-133: the canonical query string.  `request.args` is a multidict,
modelled as the list of key/value pairs in arrival order; `iterkeys` yields
each distinct key once and `getlist` the values of a key in arrival order. -/
def canonicalQueryString (args : List (String × String)) : String :=
  joinSep "&"
    ((sortStr ((args.map Prod.fst).dedup)).flatMap
      (fun key =>
        (sortStr ((args.filter (fun p => p.1 == key)).map Prod.snd)).map
          (fun v => quote key "" ++ "=" ++ quote v "")))

/-- The gate chain `HMACAuthenticator.verify` (lines 50-160), translated gate by gate.  The
external collaborators are parameters: `sha` is `sha256(·).hexdigest()` on a
byte string, `hm` is `hmac.new(key, msg, sha256).hexdigest()`, `lk` is the
session-store lookup `SessionModel.query.filter_by(session_id=·).first()`,
`now` is `datetime.utcnow()` in UTC seconds and `req` is the Flask request.
The value is the `(return value, g.user, g.user_reason)` triple, or
`Except.error` when the Python code would raise (dict access on a missing
key at lines 99/111/146, or `strptime_iso8601` on an unparsable value). -/
def verify (sha : String → String) (hm : String → String → String)
    (lk : String → Option Session) (now : Int) (req : Request)
    (algo : String) (auth headers : List (String × String)) :
    Except PyErr (Bool × Option String × String) :=
  if pylower algo ∉ (["hmac-sha256"] : List String) then
    .ok (false, none, "Unknown authentication method: " ++ algo)
  else
    match auth.lookup "credential" with
    | none => .ok (false, none, "Missing parameter: credential")
    | some credential =>
      match auth.lookup "signedheaders" with
      | none => .ok (false, none, "Missing parameter: signedheaders")
      | some sh =>
        match auth.lookup "signature" with
        | none => .ok (false, none, "Missing parameter: signature")
        | some signature =>
          let signed_headers := signedHeadersOf sh
          let required_headers := requiredHeaders headers
          if strictSuperset required_headers signed_headers then
            .ok (false, none, "Some required headers were not signed: " ++
              joinSep ", " (uncoveredOf required_headers signed_headers))
          else
            let missing_headers := missingOf signed_headers (headers.map Prod.fst)
            if missing_headers.length > 0 then
              .ok (false, none, "Missing headers: " ++ joinSep ", " missing_headers)
            else
              match headers.lookup "x-woodbox-timestamp" with
              | none => .error (.keyError "x-woodbox-timestamp")
              | some ts =>
                match strptime_iso8601 ts with
                | none => .error .valueError
                | some request_time =>
                  if (request_time - now).natAbs > 300 then
                    .ok (false, none, "Request is too old.")
                  else
                    let payload_hash := sha req.data
                    match headers.lookup "x-woodbox-content-sha256" with
                    | none => .error (.keyError "x-woodbox-content-sha256")
                    | some claimed =>
                      if payload_hash ≠ claimed then
                        .ok (false, none, "Content hash does not match.")
                      else
                        match lk credential with
                        | none => .ok (false, none, "Invalid credential.")
                        | some session =>
                          -- line 138 accesses `headers[h]`; the presence
                          -- gate above guarantees every signed name is a
                          -- request header, so the `getD ""` default is
                          -- unreachable here.
                          let canonical_request := joinSep "\n"
                            [pystrip req.method,
                             quote (pystrip req.path) "/",
                             canonicalQueryString req.args,
                             joinSep "\n" (signed_headers.map
                               (fun h => h ++ ":" ++ ((headers.lookup h).getD ""))),
                             joinSep ";" signed_headers,
                             payload_hash]
                          let string_to_sign := joinSep "\n"
                            ["WOODBOX-HMAC-SHA256", ts, sha canonical_request]
                          let computed_signature := hm session.secret string_to_sign
                          if compare_digest signature computed_signature then
                            .ok (true, some session.user_id, "Authenticated")
                          else
                            .ok (false, none, "Signature do not match")

/-- The decorator body of `HMACAuthenticator.authenticate` (lines 165-183) up to the
point where it calls the wrapped handler: lower-case and trim the raw request
headers into a dict, set the default `g` state, and run `verify` only when an
`Authorization` header is present whose scheme starts with `woodbox-`
(case-insensitively).  The value is the final `(g.user, g.user_reason)`. -/
def authenticate (sha : String → String) (hm : String → String → String)
    (lk : String → Option Session) (now : Int) (req : Request)
    (rawHeaders : List (String × String)) : Except PyErr (Option String × String) :=
  let headers := rawHeaders.foldl
    (fun d p => dictInsert d (pystrip (pylower p.1)) (pystrip p.2)) []
  match headers.lookup "authorization" with
  | none => .ok (none, "No valid authorization header.")
  | some a =>
    let pa := parse_authorization_header a
    if pylower (pytake pa.1 8) == "woodbox-" then
      match verify sha hm lk now req (pylower (pydrop pa.1 8)) pa.2 headers with
      | .error e => .error e
      | .ok r => .ok (r.2.1, r.2.2)
    else .ok (none, "No valid authorization header.")

/-! ### Order facts about the byte-string comparison used by `sortStr` -/

theorem charEq_of_toNat_eq {a b : Char} (h : a.toNat = b.toNat) : a = b :=
  Char.ext (UInt32.ext_iff.mpr h)

theorem lexLe_total : ∀ (as bs : List Char), lexLe as bs = true ∨ lexLe bs as = true
  | [], _ => Or.inl rfl
  | _ :: _, [] => Or.inr rfl
  | a :: as, b :: bs => by
    rcases Nat.lt_trichotomy a.toNat b.toNat with h | h | h
    · exact Or.inl (by simp [lexLe, h])
    · have h1 : ¬ a.toNat < b.toNat := by omega
      have h2 : ¬ b.toNat < a.toNat := by omega
      rcases lexLe_total as bs with h3 | h3
      · exact Or.inl (by simp [lexLe, h1, h2, h3])
      · exact Or.inr (by simp [lexLe, h1, h2, h3])
    · exact Or.inr (by simp [lexLe, h])

theorem lexLe_trans :
    ∀ (as bs cs : List Char), lexLe as bs = true → lexLe bs cs = true → lexLe as cs = true
  | [], _, _ => fun _ _ => rfl
  | _ :: _, [], _ => fun h1 _ => absurd h1 (by simp [lexLe])
  | _ :: _, _ :: _, [] => fun _ h2 => absurd h2 (by simp [lexLe])
  | a :: as, b :: bs, c :: cs => fun h1 h2 => by
    rcases Nat.lt_trichotomy a.toNat b.toNat with hab | hab | hab
    · rcases Nat.lt_trichotomy b.toNat c.toNat with hbc | hbc | hbc
      · simp [lexLe, Nat.lt_trans hab hbc]
      · have hac : a.toNat < c.toNat := by omega
        simp [lexLe, hac]
      · have nbc : ¬ b.toNat < c.toNat := by omega
        simp only [lexLe, if_neg nbc, if_pos hbc] at h2
        simp at h2
    · rcases Nat.lt_trichotomy b.toNat c.toNat with hbc | hbc | hbc
      · have hac : a.toNat < c.toNat := by omega
        simp [lexLe, hac]
      · have nab : ¬ a.toNat < b.toNat := by omega
        have nba : ¬ b.toNat < a.toNat := by omega
        have nbc : ¬ b.toNat < c.toNat := by omega
        have ncb : ¬ c.toNat < b.toNat := by omega
        have nac : ¬ a.toNat < c.toNat := by omega
        have nca : ¬ c.toNat < a.toNat := by omega
        simp only [lexLe, if_neg nab, if_neg nba] at h1
        simp only [lexLe, if_neg nbc, if_neg ncb] at h2
        simp only [lexLe, if_neg nac, if_neg nca]
        exact lexLe_trans as bs cs h1 h2
      · have nbc : ¬ b.toNat < c.toNat := by omega
        simp only [lexLe, if_neg nbc, if_pos hbc] at h2
        simp at h2
    · have nab : ¬ a.toNat < b.toNat := by omega
      simp only [lexLe, if_neg nab, if_pos hab] at h1
      simp at h1

theorem lexLe_antisymm :
    ∀ (as bs : List Char), lexLe as bs = true → lexLe bs as = true → as = bs
  | [], [] => fun _ _ => rfl
  | [], _ :: _ => fun _ h2 => absurd h2 (by simp [lexLe])
  | _ :: _, [] => fun h1 _ => absurd h1 (by simp [lexLe])
  | a :: as, b :: bs => fun h1 h2 => by
    rcases Nat.lt_trichotomy a.toNat b.toNat with h | h | h
    · have nba : ¬ b.toNat < a.toNat := by omega
      simp only [lexLe, if_neg nba, if_pos h] at h2
      simp at h2
    · have hc : a = b := charEq_of_toNat_eq h
      have nab : ¬ a.toNat < b.toNat := by omega
      have nba : ¬ b.toNat < a.toNat := by omega
      simp only [lexLe, if_neg nab, if_neg nba] at h1
      simp only [lexLe, if_neg nab, if_neg nba] at h2
      rw [hc, lexLe_antisymm as bs h1 h2]
    · have nab : ¬ a.toNat < b.toNat := by omega
      simp only [lexLe, if_neg nab, if_pos h] at h1
      simp at h1

instance : IsTotal String (fun a b => strLe a b = true) :=
  ⟨fun a b => lexLe_total a.data b.data⟩

instance : IsTrans String (fun a b => strLe a b = true) :=
  ⟨fun a b c => lexLe_trans a.data b.data c.data⟩

instance : IsAntisymm String (fun a b => strLe a b = true) :=
  ⟨fun a b h1 h2 => by
    have h := lexLe_antisymm a.data b.data h1 h2
    cases a; cases b; exact congrArg String.mk h⟩

theorem sortStr_sorted (l : List String) :
    List.Sorted (fun a b => strLe a b = true) (sortStr l) :=
  List.sorted_insertionSort _ l

theorem sortStr_perm (l : List String) : sortStr l ~ l :=
  List.perm_insertionSort _ l

theorem sortStr_eq_of_perm {l l2 : List String} (h : l ~ l2) : sortStr l = sortStr l2 :=
  List.eq_of_perm_of_sorted
    ((sortStr_perm l).trans (h.trans (sortStr_perm l2).symm))
    (sortStr_sorted l) (sortStr_sorted l2)

/-! ### The constant-time comparison (claim C3) -/

theorem foldl_and_eq (p : Nat → Bool) :
    ∀ (l : List Nat) (b : Bool), l.foldl (fun r i => r && p i) b = (b && l.all p)
  | [], b => by simp
  | x :: xs, b => by
    simp [List.foldl_cons, foldl_and_eq p xs, List.all_cons, Bool.and_assoc]

theorem foldl_pair (g : Bool → Nat → Bool) :
    ∀ (l : List Nat) (b : Bool) (n : Nat),
      l.foldl (fun st i => (g st.1 i, st.2 + 1)) (b, n) = (l.foldl g b, n + l.length)
  | [], _, _ => by simp
  | x :: xs, b, n => by
    have := foldl_pair g xs (g b x) (n + 1)
    simp only [List.foldl_cons, this, List.length_cons]
    congr 1
    omega

theorem string_length_eq_data (s : String) : s.length = s.data.length := rfl

theorem compare_digest_eq_true_iff (a b : String) : compare_digest a b = true ↔ a = b := by
  unfold compare_digest
  by_cases hl : a.length = b.length
  · simp only [hl, ne_eq, not_true_eq_false, if_false]
    rw [foldl_and_eq]
    simp only [Bool.true_and, List.all_eq_true, List.mem_range]
    have hla : a.length = a.data.length := rfl
    have hlb : b.length = b.data.length := rfl
    constructor
    · intro H
      have hd : a.data = b.data := by
        refine List.ext_getElem (by omega) (fun i h1 h2 => ?_)
        have hg := H i (by omega)
        simp only [List.getD_eq_getElem?_getD, List.getElem?_eq_getElem h1,
          List.getElem?_eq_getElem h2, Option.getD_some, beq_iff_eq] at hg
        exact hg
      cases a; cases b; exact congrArg String.mk hd
    · rintro rfl
      intro i _
      simp
  · simp only [ne_eq, hl, not_false_eq_true, if_true]
    constructor
    · intro h; exact absurd h (by simp)
    · rintro rfl; exact absurd rfl hl

theorem compareDigestTrace_eq (a b : String) :
    compareDigestTrace a b = (compare_digest a b, min a.length b.length) := by
  unfold compareDigestTrace compare_digest
  have hp := foldl_pair
    (fun r i => r && (a.data.getD i (Char.ofNat 0) == b.data.getD i (Char.ofNat 0)))
    (List.range (min a.length b.length)) true 0
  simp only [hp, List.length_range, Nat.zero_add]

/-- Claim C3: the fallback `compare_digest` (lines 24-34) decides string
equality: it returns `true` exactly for equal strings.  Its control flow is
data-independent: it always performs exactly `min (len a) (len b)` loop
iterations — it neither exits early at the first differing byte nor takes a
separate path for a length mismatch, which is folded in by the final length
test after the full loop has run. -/
theorem C3_compare_digest_correct_constant_time :
    (∀ a b : String, compare_digest a b = true ↔ a = b) ∧
    (∀ a b : String, compareDigestTrace a b = (compare_digest a b, min a.length b.length)) :=
  ⟨compare_digest_eq_true_iff, compareDigestTrace_eq⟩

/-! ### Order-independence of the canonical query string (claim C5) -/

theorem canonicalQueryString_perm {args args2 : List (String × String)}
    (h : args ~ args2) : canonicalQueryString args = canonicalQueryString args2 := by
  unfold canonicalQueryString
  have hkeys : sortStr ((args.map Prod.fst).dedup) = sortStr ((args2.map Prod.fst).dedup) :=
    sortStr_eq_of_perm (h.map Prod.fst).dedup
  have hfun :
      (fun key => (sortStr ((args.filter (fun p => p.1 == key)).map Prod.snd)).map
        (fun v => quote key "" ++ "=" ++ quote v "")) =
      (fun key => (sortStr ((args2.filter (fun p => p.1 == key)).map Prod.snd)).map
        (fun v => quote key "" ++ "=" ++ quote v "")) := by
    funext key
    rw [sortStr_eq_of_perm ((h.filter (fun p => p.1 == key)).map Prod.snd)]
  rw [hkeys, hfun]

/-- Claim C5: the canonical query string (lines 126-133) is order-independent:
any two arrival orders of the same multiset of query key/value pairs produce
the identical canonical query string (keys are deduplicated, keys and the
values of each key are sorted before the percent-encoded `key=value` pairs
are joined with `&`), hence identical canonical requests. -/
theorem C5_canonical_query_order_independent
    (args args2 : List (String × String)) (h : args ~ args2) :
    canonicalQueryString args = canonicalQueryString args2 :=
  canonicalQueryString_perm h

/-- Witness for C5 at the spec's own example: `?b=2&a=1` and `?a=1&b=2`. -/
theorem C5_witness :
    canonicalQueryString [("b", "2"), ("a", "1")] =
      canonicalQueryString [("a", "1"), ("b", "2")] :=
  C5_canonical_query_order_independent _ _ (by decide)

/-! ### The canonical path encoding (claim C6) -/

/-- The encoding rule stated by the spec's words for the canonical path:
exactly the ASCII letters, digits and `- _ . ~` are left unescaped and every
other byte is percent-escaped.  (Kept separate from `quote`, which is the
source's Python 2 `urllib.quote`, so the two can be compared.) -/
def specUnreservedEncode (s : String) : String :=
  String.join (s.data.map (fun c =>
    if c.isAlpha || c.isDigit || c == '-' || c == '_' || c == '.' || c == '~'
    then String.mk [c] else "%" ++ hex2 c.toNat))

/-- The rule the source actually implements (amended claim): ASCII letters,
digits, `- _ .` and the path separator `/` stay unescaped; every other byte —
including `~` — is percent-escaped with upper-case hex. -/
def unreservedSlashEncode (s : String) : String :=
  String.join (s.data.map (fun c =>
    if c.isAlpha || c.isDigit || c == '-' || c == '_' || c == '.' || c == '/'
    then String.mk [c] else "%" ++ hex2 c.toNat))

/-- A Python 2 `str` is a byte string; build one from explicit byte values. -/
def bytesToString (bs : List (Fin 256)) : String :=
  String.mk (bs.map (fun b => Char.ofNat b.1))

/-- Counterexample to claim C6: the canonical-path encoder is `urllib.quote`
with Python 2's `always_safe` and the default `safe='/'`: on the concrete
path `"/~"` it differs from the spec's unreserved rule — the code escapes
`~` (not in Python 2's `always_safe`) and leaves `/` bare (the default
`safe`), while the spec's rule does the opposite. -/
theorem C6_counterexample :
    quote "/~" "/" ≠ specUnreservedEncode "/~" ∧
    quote "/~" "/" = "/%7E" ∧ specUnreservedEncode "/~" = "%2F~" := by decide

set_option maxRecDepth 8192 in
theorem quoteChar_byte :
    ∀ b : Fin 256, quoteChar "/" (Char.ofNat b.1) =
      (if (Char.ofNat b.1).isAlpha || (Char.ofNat b.1).isDigit || Char.ofNat b.1 == '-' ||
          Char.ofNat b.1 == '_' || Char.ofNat b.1 == '.' || Char.ofNat b.1 == '/'
       then String.mk [Char.ofNat b.1] else "%" ++ hex2 (Char.ofNat b.1).toNat) := by
  decide

/-- Claim C6 as amended: for every byte string, the source's canonical-path
encoding (`urllib.quote` with `safe='/'`, line 124) leaves exactly the ASCII
letters, digits, `- _ .` and `/` unescaped and percent-escapes every other
byte (upper-case hex); in particular `~` is escaped and `/` is not. -/
theorem C6_amended_quote_is_unreserved_slash (bs : List (Fin 256)) :
    quote (bytesToString bs) "/" = unreservedSlashEncode (bytesToString bs) := by
  show String.join ((bs.map (fun b => Char.ofNat b.1)).map (quoteChar "/")) = _
  show _ = String.join ((bs.map (fun b => Char.ofNat b.1)).map (fun c =>
    if c.isAlpha || c.isDigit || c == '-' || c == '_' || c == '.' || c == '/'
    then String.mk [c] else "%" ++ hex2 c.toNat))
  simp only [List.map_map]
  congr 1
  apply List.map_congr_left
  intro b _
  exact quoteChar_byte b

/-! ### Behaviour of `verify` past the early gates -/

theorem verify_unfold_gates
    (sha : String → String) (hm : String → String → String) (lk : String → Option Session)
    (now : Int) (req : Request) (algo : String) (auth headers : List (String × String))
    (cred sh sig ts : String) (t : Int)
    (halgo : pylower algo = "hmac-sha256")
    (hcred : auth.lookup "credential" = some cred)
    (hsh : auth.lookup "signedheaders" = some sh)
    (hsig : auth.lookup "signature" = some sig)
    (hcov : strictSuperset (requiredHeaders headers) (signedHeadersOf sh) = false)
    (hmiss : missingOf (signedHeadersOf sh) (headers.map Prod.fst) = [])
    (hts : headers.lookup "x-woodbox-timestamp" = some ts)
    (hparse : strptime_iso8601 ts = some t) :
    verify sha hm lk now req algo auth headers =
      if (t - now).natAbs > 300 then .ok (false, none, "Request is too old.")
      else
        match headers.lookup "x-woodbox-content-sha256" with
        | none => .error (.keyError "x-woodbox-content-sha256")
        | some claimed =>
          if sha req.data ≠ claimed then .ok (false, none, "Content hash does not match.")
          else
            match lk cred with
            | none => .ok (false, none, "Invalid credential.")
            | some session =>
              if compare_digest sig (hm session.secret (joinSep "\n"
                  ["WOODBOX-HMAC-SHA256", ts, sha (joinSep "\n"
                    [pystrip req.method, quote (pystrip req.path) "/",
                     canonicalQueryString req.args,
                     joinSep "\n" ((signedHeadersOf sh).map
                       (fun h => h ++ ":" ++ ((headers.lookup h).getD ""))),
                     joinSep ";" (signedHeadersOf sh), sha req.data])]))
              then .ok (true, some session.user_id, "Authenticated")
              else .ok (false, none, "Signature do not match") := by
  simp only [verify, halgo, hcred, hsh, hsig, hcov, hmiss, hts, hparse,
    List.mem_cons, List.not_mem_nil, or_false, not_true, not_not, List.length_nil,
    gt_iff_lt, lt_self_iff_false, if_false, Bool.false_eq_true]

/-! ### The freshness gate (claim C4) -/

/-- Claim C4: for every request that reaches the freshness gate (the earlier
gates pass and the `x-woodbox-timestamp` header parses to `t`), `verify`
rejects with reason `"Request is too old."` exactly when
`abs(t - now) > 300` seconds, i.e. the request passes freshness exactly when
the absolute skew is at most 5 minutes; past and future skew are treated
alike. -/
theorem C4_freshness_gate
    (sha : String → String) (hm : String → String → String) (lk : String → Option Session)
    (now : Int) (req : Request) (algo : String) (auth headers : List (String × String))
    (cred sh sig ts : String) (t : Int)
    (halgo : pylower algo = "hmac-sha256")
    (hcred : auth.lookup "credential" = some cred)
    (hsh : auth.lookup "signedheaders" = some sh)
    (hsig : auth.lookup "signature" = some sig)
    (hcov : strictSuperset (requiredHeaders headers) (signedHeadersOf sh) = false)
    (hmiss : missingOf (signedHeadersOf sh) (headers.map Prod.fst) = [])
    (hts : headers.lookup "x-woodbox-timestamp" = some ts)
    (hparse : strptime_iso8601 ts = some t) :
    verify sha hm lk now req algo auth headers = .ok (false, none, "Request is too old.")
      ↔ 300 < (t - now).natAbs := by
  rw [verify_unfold_gates sha hm lk now req algo auth headers cred sh sig ts t
    halgo hcred hsh hsig hcov hmiss hts hparse]
  by_cases hf : 300 < (t - now).natAbs
  · simp [hf]
  · simp only [gt_iff_lt, if_neg hf]
    apply iff_of_false ?_ hf
    intro hE
    repeat' split at hE
    all_goals simp at hE

/-- The parsed value of the sample timestamp `20160122T211203Z`, in UTC
seconds. -/
def t0 : Int := (strptime_iso8601 "20160122T211203Z").getD 0

/-- A well-formed authorization parameter map signing exactly the three base
required headers. -/
def c4auth : List (String × String) :=
  [("credential", "c1"),
   ("signedheaders", "host;x-woodbox-content-sha256;x-woodbox-timestamp"),
   ("signature", "sig")]

/-- Request headers matching `c4auth`. -/
def c4headers : List (String × String) :=
  [("host", "h"), ("x-woodbox-content-sha256", "H"),
   ("x-woodbox-timestamp", "20160122T211203Z")]

/-- A minimal request object. -/
def c4req : Request := ⟨"GET", "/", [], "b"⟩

/-- Witness for C4 at the spec's boundary examples: with a concrete request
whose timestamp parses to `t0`, a clock 5 min 1 s later or 5 min 1 s earlier
is rejected as too old, while a clock 4 min 59 s later is not. -/
theorem C4_witness :
    (verify (fun _ => "H") (fun _ _ => "S") (fun _ => none) (t0 + 301) c4req
        "hmac-sha256" c4auth c4headers = .ok (false, none, "Request is too old.")) ∧
    (verify (fun _ => "H") (fun _ _ => "S") (fun _ => none) (t0 - 301) c4req
        "hmac-sha256" c4auth c4headers = .ok (false, none, "Request is too old.")) ∧
    ¬(verify (fun _ => "H") (fun _ _ => "S") (fun _ => none) (t0 + 299) c4req
        "hmac-sha256" c4auth c4headers = .ok (false, none, "Request is too old.")) := by
  refine ⟨?_, ?_, ?_⟩
  · exact (C4_freshness_gate (fun _ => "H") (fun _ _ => "S") (fun _ => none) (t0 + 301)
      c4req "hmac-sha256" c4auth c4headers "c1"
      "host;x-woodbox-content-sha256;x-woodbox-timestamp" "sig" "20160122T211203Z" t0
      rfl rfl rfl rfl rfl rfl rfl rfl).mpr (by decide)
  · exact (C4_freshness_gate (fun _ => "H") (fun _ _ => "S") (fun _ => none) (t0 - 301)
      c4req "hmac-sha256" c4auth c4headers "c1"
      "host;x-woodbox-content-sha256;x-woodbox-timestamp" "sig" "20160122T211203Z" t0
      rfl rfl rfl rfl rfl rfl rfl rfl).mpr (by decide)
  · intro hE
    exact absurd ((C4_freshness_gate (fun _ => "H") (fun _ _ => "S") (fun _ => none)
      (t0 + 299) c4req "hmac-sha256" c4auth c4headers "c1"
      "host;x-woodbox-content-sha256;x-woodbox-timestamp" "sig" "20160122T211203Z" t0
      rfl rfl rfl rfl rfl rfl rfl rfl).mp hE) (by decide)

/-! ### The canonical request string (claim C7) -/

/-- The string-to-sign a signer would produce for the C7 request if it put
the method in the canonical request exactly as received (`get`). -/
def c7lower : String :=
  "WOODBOX-HMAC-SHA256\n20160122T211203Z\nget\n/p\n\nhost:h\nx-woodbox-content-sha256:B\nx-woodbox-timestamp:20160122T211203Z\nhost;x-woodbox-content-sha256;x-woodbox-timestamp\nB"

/-- The same string-to-sign but with the method upper-cased (`GET`), as the
spec's canonicalization rule prescribes. -/
def c7upper : String :=
  "WOODBOX-HMAC-SHA256\n20160122T211203Z\nGET\n/p\n\nhost:h\nx-woodbox-content-sha256:B\nx-woodbox-timestamp:20160122T211203Z\nhost;x-woodbox-content-sha256;x-woodbox-timestamp\nB"

set_option maxRecDepth 8192 in
/-- Counterexample to claim C7: line 123 only strips the method
(`request.method.strip()`), it never upper-cases it.  With the identity in
place of the hash/hmac primitives (so the compared signature IS the
string-to-sign), a request whose method arrives as `"get"` verifies against
the signature computed over the canonical request containing `"get"`, and is
REJECTED against the one containing `"GET"` — so a lower-case method does
not canonicalize to upper case as the claim states. -/
theorem C7_counterexample :
    (verify (fun s => s) (fun _ m => m)
      (fun cid => if cid == "c1" then some ⟨"sec", "alice"⟩ else none) t0
      ⟨"get", "/p", [], "B"⟩ "hmac-sha256"
      [("credential", "c1"),
       ("signedheaders", "host;x-woodbox-content-sha256;x-woodbox-timestamp"),
       ("signature", c7lower)]
      [("host", "h"), ("x-woodbox-content-sha256", "B"),
       ("x-woodbox-timestamp", "20160122T211203Z")]
      = .ok (true, some "alice", "Authenticated")) ∧
    (verify (fun s => s) (fun _ m => m)
      (fun cid => if cid == "c1" then some ⟨"sec", "alice"⟩ else none) t0
      ⟨"get", "/p", [], "B"⟩ "hmac-sha256"
      [("credential", "c1"),
       ("signedheaders", "host;x-woodbox-content-sha256;x-woodbox-timestamp"),
       ("signature", c7upper)]
      [("host", "h"), ("x-woodbox-content-sha256", "B"),
       ("x-woodbox-timestamp", "20160122T211203Z")]
      = .ok (false, none, "Signature do not match")) :=
  ⟨rfl, rfl⟩

/-- Claim C7 as amended: for every request reaching the signature stage, the
signature is computed over the string-to-sign built from the canonical
request, which is the newline-join of exactly six components in order: the
HTTP method as received after stripping (NOT upper-cased), the canonical
path, the canonical query string, the canonical header block, the signed
header names joined with `;`, and the payload digest. -/
theorem C7_amended_canonical_request
    (sha : String → String) (hm : String → String → String) (lk : String → Option Session)
    (now : Int) (req : Request) (algo : String) (auth headers : List (String × String))
    (cred sh sig ts : String) (t : Int) (session : Session)
    (halgo : pylower algo = "hmac-sha256")
    (hcred : auth.lookup "credential" = some cred)
    (hsh : auth.lookup "signedheaders" = some sh)
    (hsig : auth.lookup "signature" = some sig)
    (hcov : strictSuperset (requiredHeaders headers) (signedHeadersOf sh) = false)
    (hmiss : missingOf (signedHeadersOf sh) (headers.map Prod.fst) = [])
    (hts : headers.lookup "x-woodbox-timestamp" = some ts)
    (hparse : strptime_iso8601 ts = some t)
    (hfresh : ¬ 300 < (t - now).natAbs)
    (hcs : headers.lookup "x-woodbox-content-sha256" = some (sha req.data))
    (hlk : lk cred = some session) :
    verify sha hm lk now req algo auth headers =
      if compare_digest sig (hm session.secret (joinSep "\n"
          ["WOODBOX-HMAC-SHA256", ts, sha (joinSep "\n"
            [pystrip req.method, quote (pystrip req.path) "/",
             canonicalQueryString req.args,
             joinSep "\n" ((signedHeadersOf sh).map
               (fun h => h ++ ":" ++ ((headers.lookup h).getD ""))),
             joinSep ";" (signedHeadersOf sh), sha req.data])]))
      then .ok (true, some session.user_id, "Authenticated")
      else .ok (false, none, "Signature do not match") := by
  rw [verify_unfold_gates sha hm lk now req algo auth headers cred sh sig ts t
    halgo hcred hsh hsig hcov hmiss hts hparse]
  simp only [gt_iff_lt, if_neg hfresh, hcs, hlk, ne_eq, not_true_eq_false, if_false,
    Bool.false_eq_true]

set_option maxRecDepth 8192 in
/-- Witness for C7 (amended) at a concrete request with method `"put"`:
the theorem applies and the resulting comparison succeeds against the
signature computed over the canonical request that contains `"put"`
verbatim. -/
theorem C7_witness :
    verify (fun s => s) (fun _ m => m)
      (fun cid => if cid == "c2" then some ⟨"sec2", "bob"⟩ else none) t0
      ⟨"put", "/q", [], "D"⟩ "hmac-sha256"
      [("credential", "c2"),
       ("signedheaders", "host;x-woodbox-content-sha256;x-woodbox-timestamp"),
       ("signature",
        "WOODBOX-HMAC-SHA256\n20160122T211203Z\nput\n/q\n\nhost:h2\nx-woodbox-content-sha256:D\nx-woodbox-timestamp:20160122T211203Z\nhost;x-woodbox-content-sha256;x-woodbox-timestamp\nD")]
      [("host", "h2"), ("x-woodbox-content-sha256", "D"),
       ("x-woodbox-timestamp", "20160122T211203Z")]
      = .ok (true, some "bob", "Authenticated") := by
  have h := C7_amended_canonical_request (fun s => s) (fun _ m => m)
    (fun cid => if cid == "c2" then some ⟨"sec2", "bob"⟩ else none) t0
    ⟨"put", "/q", [], "D"⟩ "hmac-sha256"
    [("credential", "c2"),
     ("signedheaders", "host;x-woodbox-content-sha256;x-woodbox-timestamp"),
     ("signature",
      "WOODBOX-HMAC-SHA256\n20160122T211203Z\nput\n/q\n\nhost:h2\nx-woodbox-content-sha256:D\nx-woodbox-timestamp:20160122T211203Z\nhost;x-woodbox-content-sha256;x-woodbox-timestamp\nD")]
    [("host", "h2"), ("x-woodbox-content-sha256", "D"),
     ("x-woodbox-timestamp", "20160122T211203Z")]
    "c2" "host;x-woodbox-content-sha256;x-woodbox-timestamp"
    "WOODBOX-HMAC-SHA256\n20160122T211203Z\nput\n/q\n\nhost:h2\nx-woodbox-content-sha256:D\nx-woodbox-timestamp:20160122T211203Z\nhost;x-woodbox-content-sha256;x-woodbox-timestamp\nD"
    "20160122T211203Z" t0 ⟨"sec2", "bob"⟩
    rfl rfl rfl rfl rfl rfl rfl rfl (by decide) rfl rfl
  rw [h]
  rfl

/-! ### Result/state consistency of `verify` (claim C10) -/

theorem append_ne_empty (a b : String) (ha : 0 < a.length) : a ++ b ≠ "" := by
  intro he
  have hl := congrArg String.length he
  rw [String.length_append] at hl
  have h0 : ("" : String).length = 0 := rfl
  omega

/-- Claim C10: every `verify` execution that returns (rather than raising)
keeps the ambient state consistent with the returned boolean: on `False` the
ambient user is `None` and the reason is a non-empty string; on `True` the
ambient user is the identity of the credential resolved for the request's
`Credential` parameter and the reason is `"Authenticated"`; and the boolean
always equals "the ambient user is set" (identities in the session store are
non-null). -/
theorem C10_result_state_consistency
    (sha : String → String) (hm : String → String → String) (lk : String → Option Session)
    (now : Int) (req : Request) (algo : String) (auth headers : List (String × String))
    (ret : Bool) (u : Option String) (r : String)
    (hE : verify sha hm lk now req algo auth headers = .ok (ret, u, r)) :
    (ret = u.isSome) ∧
    (ret = false → u = none ∧ r ≠ "") ∧
    (ret = true → r = "Authenticated" ∧
      ∃ cred, auth.lookup "credential" = some cred ∧
        ∃ session, lk cred = some session ∧ u = some session.user_id) := by
  unfold verify at hE
  simp only [] at hE
  repeat' split at hE
  any_goals exact Except.noConfusion hE
  all_goals (
    injection hE with h
    injection h with hret h2
    injection h2 with hu hr
    subst hret
    subst hu
    subst hr
    refine ⟨rfl, fun hb => ?_, fun hb => ?_⟩ <;>
      first
        | exact Bool.noConfusion hb
        | exact ⟨rfl, by decide⟩
        | exact ⟨rfl, append_ne_empty _ _ (by decide)⟩
        | exact ⟨rfl, _, by assumption, _, by assumption, rfl⟩)

/-- Witness for C10 at a concrete rejected request (unknown scheme): the
returned boolean is `False`, the ambient user is `None` and the reason is
the non-empty unknown-method message. -/
theorem C10_witness :
    (false : Bool) = (none : Option String).isSome ∧
    (none : Option String) = none ∧ "Unknown authentication method: dsa" ≠ "" := by
  have h := C10_result_state_consistency (fun _ => "H") (fun _ _ => "S") (fun _ => none)
    0 ⟨"GET", "/", [], ""⟩ "dsa" [] [] false none
    "Unknown authentication method: dsa" rfl
  exact ⟨h.1, h.2.1 rfl⟩

/-! ### The header-coverage gate (claim C1) -/

set_option maxRecDepth 8192 in
/-- Claim C1 names a code bug: line 85 tests `required_headers > set(signed_headers)`
— Python's PROPER-superset — instead of the "required not a subset of
signed" test that its own comment (line 84, "Check that all required headers
were signed") and the spec describe.  Concretely: the client signs
`extra;host;x-woodbox-content-sha256`, omitting the required
`x-woodbox-timestamp` header; because the signed set contains the extra
non-required name, the proper-superset test is `False`, the gate passes, and
the request even authenticates — no `UncoveredRequiredHeaders` rejection is
produced. -/
theorem C1_coverage_gate_bug :
    ("x-woodbox-timestamp" ∈
        requiredHeaders [("host", "example.com"), ("x-woodbox-content-sha256", "H"),
          ("x-woodbox-timestamp", "20160122T211203Z"), ("extra", "1")] ∧
      "x-woodbox-timestamp" ∉ signedHeadersOf "extra;host;x-woodbox-content-sha256") ∧
    strictSuperset
      (requiredHeaders [("host", "example.com"), ("x-woodbox-content-sha256", "H"),
        ("x-woodbox-timestamp", "20160122T211203Z"), ("extra", "1")])
      (signedHeadersOf "extra;host;x-woodbox-content-sha256") = false ∧
    verify (fun _ => "H") (fun _ _ => "SIG")
      (fun cid => if cid == "cred1" then some ⟨"secret", "alice"⟩ else none)
      t0 ⟨"GET", "/", [], "body"⟩ "hmac-sha256"
      [("credential", "cred1"), ("signedheaders", "extra;host;x-woodbox-content-sha256"),
       ("signature", "SIG")]
      [("host", "example.com"), ("x-woodbox-content-sha256", "H"),
       ("x-woodbox-timestamp", "20160122T211203Z"), ("extra", "1")]
      = .ok (true, some "alice", "Authenticated") :=
  ⟨⟨by decide, by decide⟩, rfl, rfl⟩

/-! ### `verify` can raise (claim C2) -/

set_option maxRecDepth 8192 in
/-- Claim C2 names a code bug: `verify` does not always return a result: (i) when
the coverage-gate bug of C1 lets a request through whose signed headers do
not include `x-woodbox-timestamp` and that header is absent from the
request, line 99's `headers['x-woodbox-timestamp']` raises `KeyError`;
(ii) when the timestamp header is present but unparsable, the uncaught
`ValueError` from `strptime_iso8601` propagates out of `verify` instead of
producing a rejection. -/
theorem C2_verify_can_raise :
    (verify (fun _ => "H") (fun _ _ => "SIG") (fun _ => none) t0 ⟨"GET", "/", [], "body"⟩
      "hmac-sha256"
      [("credential", "cred1"), ("signedheaders", "extra;host;x-woodbox-content-sha256"),
       ("signature", "SIG")]
      [("host", "example.com"), ("x-woodbox-content-sha256", "H"), ("extra", "1")]
      = .error (.keyError "x-woodbox-timestamp")) ∧
    (verify (fun _ => "H") (fun _ _ => "SIG") (fun _ => none) t0 ⟨"GET", "/", [], "body"⟩
      "hmac-sha256"
      [("credential", "cred1"),
       ("signedheaders", "host;x-woodbox-content-sha256;x-woodbox-timestamp"),
       ("signature", "SIG")]
      [("host", "example.com"), ("x-woodbox-content-sha256", "H"),
       ("x-woodbox-timestamp", "not-a-timestamp!")]
      = .error .valueError) :=
  ⟨rfl, rfl⟩

/-! ### The signed-header list (claim C8) -/

/-- Counterexample to claim C8: line 69 sorts and lower-cases the
`SignedHeaders` parameter but never deduplicates it: `host;host` yields the
list `[host, host]`, which is not duplicate-free, and the canonical header
block built from it (lines 136-139) emits the `host` line twice. -/
theorem C8_counterexample :
    signedHeadersOf "host;host" = ["host", "host"] ∧
    ¬ (signedHeadersOf "host;host").Nodup ∧
    joinSep "\n" ((signedHeadersOf "host;host").map
      (fun h => h ++ ":" ++ ((([("host", "h")] : List (String × String)).lookup h).getD "")))
      = "host:h\nhost:h" :=
  ⟨rfl, by decide, rfl⟩

/-- Claim C8 as amended: the signed-header list used by the later gates and by
the canonicalization is `sorted(SignedHeaders.lower().split(';'))`: it is
sorted and case-normalized, but multiplicities are preserved — it is a
permutation of the lower-cased split, so a name listed twice stays twice
(the set-based gates are unaffected, but the canonical header block and the
joined-names line repeat it). -/
theorem C8_amended_sorted_lowercased_not_dedup (sh : String) :
    List.Sorted (fun a b => strLe a b = true) (signedHeadersOf sh) ∧
    signedHeadersOf sh ~ pysplit (pylower sh) ';' :=
  ⟨sortStr_sorted _, sortStr_perm _⟩

/-! ### The algorithm gate (claim C9) -/

/-- Counterexample to claim C9: `authenticate` (lines 176-179) only calls
`verify` when the scheme's first eight bytes lower-case to `woodbox-`; an
unknown scheme WITHOUT that prefix (here `Basic`) leaves the default reason
`"No valid authorization header."` — not an "unknown authentication method"
rejection naming the scheme, contrary to the claim's "whether or not it
begins with the woodbox- prefix". -/
theorem C9_counterexample :
    authenticate (fun _ => "H") (fun _ _ => "S") (fun _ => none) 0 ⟨"GET", "/", [], ""⟩
      [("Authorization", "Basic dXNlcjpwYXNz")]
      = .ok (none, "No valid authorization header.") ∧
    "No valid authorization header." ≠ "Unknown authentication method: basic" :=
  ⟨rfl, by decide⟩

/-- Claim C9 as amended: the algorithm gate lives in `verify`: whenever the
algorithm string passed to `verify` does not lower-case to `hmac-sha256`,
`verify` rejects with `"Unknown authentication method: "` followed by that
string (`authenticate` passes the already lower-cased remainder after the
`woodbox-` marker, so the reason names the scheme's suffix).  Schemes whose
first eight bytes do not lower-case to `woodbox-` never reach `verify`:
`authenticate` keeps the default rejection
`"No valid authorization header."`. -/
theorem C9_amended_algorithm_gate :
    (∀ (sha : String → String) (hm : String → String → String) (lk : String → Option Session)
       (now : Int) (req : Request) (algo : String) (auth headers : List (String × String)),
       pylower algo ≠ "hmac-sha256" →
       verify sha hm lk now req algo auth headers =
         .ok (false, none, "Unknown authentication method: " ++ algo)) ∧
    (∀ (sha : String → String) (hm : String → String → String) (lk : String → Option Session)
       (now : Int) (req : Request) (rawHeaders : List (String × String)) (a : String),
       (rawHeaders.foldl (fun d p => dictInsert d (pystrip (pylower p.1)) (pystrip p.2))
           []).lookup "authorization" = some a →
       pylower (pytake (parse_authorization_header a).1 8) ≠ "woodbox-" →
       authenticate sha hm lk now req rawHeaders =
         .ok (none, "No valid authorization header.")) := by
  constructor
  · intro sha hm lk now req algo auth headers h
    unfold verify
    rw [if_pos (by simp [h])]
  · intro sha hm lk now req rawHeaders a ha h
    unfold authenticate
    simp only [ha, beq_iff_eq, if_neg h]

/-- Witness for C9 (amended): the `woodbox-dsa2` scheme reaches `verify` and
is rejected naming `dsa2`; the `Digest` scheme never reaches `verify` and
keeps the default reason. -/
theorem C9_witness :
    (verify (fun _ => "H") (fun _ _ => "S") (fun _ => none) 0 ⟨"GET", "/", [], ""⟩ "dsa2"
      [] [] = .ok (false, none, "Unknown authentication method: dsa2")) ∧
    (authenticate (fun _ => "H") (fun _ _ => "S") (fun _ => none) 0 ⟨"GET", "/", [], ""⟩
      [("Authorization", "Digest xyz")] = .ok (none, "No valid authorization header.")) := by
  constructor
  · exact C9_amended_algorithm_gate.1 (fun _ => "H") (fun _ _ => "S") (fun _ => none) 0
      ⟨"GET", "/", [], ""⟩ "dsa2" [] [] (by decide)
  · exact C9_amended_algorithm_gate.2 (fun _ => "H") (fun _ _ => "S") (fun _ => none) 0
      ⟨"GET", "/", [], ""⟩ [("Authorization", "Digest xyz")] "Digest xyz" rfl (by decide)

end Woodbox
